import Mathlib

/-!
Verification development for the endless-runner game engine
(`src/unnamed/part_000`, the `Game` Preact component).

The update half of the per-frame loop, the input handler `doAction`,
state construction `makeState`, the resize handler, the procedural
generators and the collision test are embedded as pure Lean functions
over a `GameState` record; rendering calls are omitted (they read but
never write game state).

Modelling conventions:
* JavaScript numbers are modelled as exact rationals (`ℚ`); IEEE-754
  rounding is outside the model.  `NaN`/`Infinity` results, which arise
  only from `parseInt`/`Math.max` on unparseable stored strings and from
  division by a zero speed, are modelled with `Option`.
* `Math.random()` draws are modelled as explicit oracle inputs: a stream
  `ℕ → ℚ` for the generators (consumed in call order) and named fields of
  `FrameRand` for the per-frame draws.  Each draw lies in `[0, 1)` in the
  real system; theorems that need the range state it as a hypothesis.
* `Math.sin (t * 0.012)` (the cosmetic idle bounce) is transcendental and
  is supplied as an oracle value in `FrameRand`.
* `localStorage` is the single key `da_hi`, modelled as an
  `Option String` carried next to the game state in `World`.
-/

namespace Runner

/-- Sprite-sheet frame width (`FRAME_W`). -/
def FRAME_W : ℚ := 226

/-- Sprite-sheet frame height (`FRAME_H`). -/
def FRAME_H : ℚ := 261

/-- Run-cycle frame indices (`RUN_FRAMES`), row 0 of the sheet. -/
def RUN_FRAMES : List ℕ := [0, 1, 2, 3, 4, 5]

/-- `Math.round` rounds half away from zero toward +∞ for positive input;
JS `Math.round x = ⌊x + 0.5⌋`. -/
def jsRound (q : ℚ) : ℤ := ⌊q + 1/2⌋

/-- On-screen character height (`CHAR_H`). -/
def CHAR_H : ℚ := 96

/-- On-screen character width: `Math.round(CHAR_H * FRAME_W / FRAME_H)`. -/
def CHAR_W : ℚ := (jsRound (CHAR_H * FRAME_W / FRAME_H) : ℤ)

/-- Gravity per frame (`GRAVITY`). -/
def GRAVITY : ℚ := 0.62

/-- Jump impulse (`JUMP_FORCE`), negative = upward. -/
def JUMP_FORCE : ℚ := -15

/-- Initial horizontal speed (`INIT_SPEED`). -/
def INIT_SPEED : ℚ := 5

/-- Speed cap (`MAX_SPEED`). -/
def MAX_SPEED : ℚ := 22

/-- Score accrual coefficient (`SCORE_RATE`). -/
def SCORE_RATE : ℚ := 0.009

/-- Speed growth per score unit (`SPEED_RATE`). -/
def SPEED_RATE : ℚ := 0.014

/-- Minimum obstacle gap in pixels (`MIN_GAP_PX`). -/
def MIN_GAP_PX : ℚ := 420

/-- Maximum obstacle gap in pixels (`MAX_GAP_PX`). -/
def MAX_GAP_PX : ℚ := 950

/-- Base sprite animation rate (`ANIM_FPS`). -/
def ANIM_FPS : ℚ := 10

/-- Fraction of the viewport height above the ground line
(`GROUND_RATIO` in the source; renamed to camel case here). -/
def groundRatio : ℚ := 0.76

/-- The IEEE-754 double `Math.PI`. -/
def jsMathPI : ℚ := 884279719003555 / 281474976710656

/-- One cactus silhouette from `CACTUS_DEFS`: a pixel scale and a bitmap. -/
structure CactusDef where
  scale : ℚ
  rows : List (List ℕ)
deriving Repr, DecidableEq

/-- The three obstacle silhouettes (`CACTUS_DEFS`). -/
def CACTUS_DEFS : List CactusDef :=
  [ -- Type 0 — single medium
    { scale := 7,
      rows :=
        [[0,0,1,1,0,0,0],
         [0,0,1,1,0,0,0],
         [0,1,1,1,0,0,0],
         [1,1,1,1,1,1,0],
         [1,1,1,1,0,0,0],
         [0,0,1,1,0,0,0],
         [0,0,1,1,0,0,0],
         [0,0,1,1,0,0,0],
         [0,0,1,1,0,0,0],
         [0,0,1,1,0,0,0],
         [0,0,1,1,0,0,0]] },
    -- Type 1 — tall double-arm
    { scale := 7,
      rows :=
        [[0,0,1,1,0,0,0],
         [0,0,1,1,0,0,0],
         [0,0,1,1,0,0,0],
         [0,1,1,1,0,0,0],
         [1,1,1,1,1,1,0],
         [0,0,1,1,0,0,0],
         [0,0,1,1,1,1,0],
         [0,0,1,1,1,1,0],
         [0,0,1,1,0,0,0],
         [0,0,1,1,0,0,0],
         [0,0,1,1,0,0,0],
         [0,0,1,1,0,0,0]] },
    -- Type 2 — short & wide cluster
    { scale := 7,
      rows :=
        [[0,1,1,0,0,1,1,0],
         [0,1,1,0,0,1,1,0],
         [1,1,1,1,1,1,1,0],
         [1,1,1,1,0,1,1,0],
         [0,1,1,0,0,1,1,0],
         [0,1,1,0,0,1,1,0],
         [0,1,1,0,0,1,1,0],
         [0,1,1,0,0,1,1,0],
         [0,1,1,0,0,1,1,0]] } ]

/-- `getCactusSize`: width/height in pixels of a silhouette,
`{ w: d.rows[0].length * d.scale, h: d.rows.length * d.scale }`.
Indexing past the catalog (impossible for a draw in `[0,1)`) falls back
to a default def, standing in for the JS out-of-range access. -/
def getCactusSize (type : ℕ) : ℚ × ℚ :=
  let d := CACTUS_DEFS.getD type ⟨7, []⟩
  ((d.rows.headD []).length * d.scale, d.rows.length * d.scale)

/-- A window of a skyline building (element of `windows` in `genBuildings`). -/
structure BWindow where
  f : ℕ
  c : ℕ
  lit : Bool
deriving Repr, DecidableEq

/-- One skyline building produced by `genBuildings`. -/
structure Building where
  x : ℤ
  bw : ℤ
  bh : ℤ
  floors : ℤ
  cols : ℤ
  floorH : ℤ
  colW : ℤ
  windows : List BWindow
deriving Repr, DecidableEq

/-- A parallax layer: the laid-out buildings plus the total tiling width. -/
structure Layer where
  buildings : List Building
  totalW : ℤ
deriving Repr, DecidableEq

/-- Window generation of one building in `genBuildings`: for each
`(floor, column)` cell, one draw decides presence (`> 0.3`) and, when
present, a second draw decides `lit` (`> 0.25`).  `rs` is the draw
stream, `i` the index of the next unconsumed draw; returns the windows
and the next index. -/
def genWindows (rs : ℕ → ℚ) : List (ℕ × ℕ) → ℕ → List BWindow × ℕ
  | [], i => ([], i)
  | (f, c) :: rest, i =>
    if rs i > 0.3 then
      let lit := rs (i + 1) > 0.25
      let (ws, i') := genWindows rs rest (i + 2)
      (⟨f, c, lit⟩ :: ws, i')
    else
      genWindows rs rest (i + 1)

/-- The cell order of the nested window loops: floor-major, column-minor. -/
def windowCells (floors cols : ℕ) : List (ℕ × ℕ) :=
  (List.range floors).flatMap fun f => (List.range cols).map fun c => (f, c)

/-- Body of the `genBuildings` loop: lays out `count` buildings
left-to-right, threading the cursor `x` and the draw index `i`. -/
def genBuildingsAux (rs : ℕ → ℚ) (minW maxW minH maxH : ℤ) :
    ℕ → ℤ → ℕ → List Building × ℤ
  | 0, x, _ => ([], x)
  | n + 1, x, i =>
    let bw : ℤ := minW + ⌊rs i * ((maxW - minW + 1 : ℤ) : ℚ)⌋
    let bh : ℤ := minH + ⌊rs (i + 1) * ((maxH - minH + 1 : ℤ) : ℚ)⌋
    let floorH : ℤ := 14
    let colW : ℤ := 12
    let floors : ℤ := bh / floorH
    let cols : ℤ := bw / colW
    let (windows, i') := genWindows rs (windowCells floors.toNat cols.toNat) (i + 2)
    let step : ℤ := bw + 3 + ⌊rs i' * (10 : ℚ)⌋
    let (rest, totalW) := genBuildingsAux rs minW maxW minH maxH n (x + step) (i' + 1)
    (⟨x, bw, bh, floors, cols, floorH, colW, windows⟩ :: rest, totalW)

/-- `genBuildings(count, minW, maxW, minH, maxH)`: the skyline generator. -/
def genBuildings (count : ℕ) (minW maxW minH maxH : ℤ) (rs : ℕ → ℚ) : Layer :=
  let (buildings, totalW) := genBuildingsAux rs minW maxW minH maxH count 0 0
  ⟨buildings, totalW⟩

/-- One star of the star field (`genStars` element). -/
structure Star where
  x : ℚ
  y : ℚ
  r : ℚ
  a : ℚ
  tw : ℚ
  tp : ℚ
deriving Repr, DecidableEq

/-- `genStars(w, groundY)`: always 180 stars; star `i` consumes draws
`6*i .. 6*i+5` of the stream, in the source's field order. -/
def genStars (w groundY : ℚ) (rs : ℕ → ℚ) : List Star :=
  (List.range 180).map fun i =>
    { x := rs (6 * i) * w
      y := rs (6 * i + 1) * groundY * 0.88
      r := if rs (6 * i + 2) < 0.2 then 1.4 else 0.8
      a := 0.45 + rs (6 * i + 3) * 0.55
      tw := 0.25 + rs (6 * i + 4) * 1.1
      tp := rs (6 * i + 5) * jsMathPI * 2 }

/-- The phase string of the source: `'intro' | 'playing' | 'gameover'`. -/
inductive Phase where
  | intro
  | playing
  | gameover
deriving Repr, DecidableEq

/-- The `char` sub-record of the game state. -/
structure CharState where
  x : ℚ
  y : ℚ
  vy : ℚ
  grounded : Bool
  frame : ℕ
  frameTick : ℚ
  bounce : ℚ
deriving Repr, DecidableEq

/-- One live obstacle: `{ x, type, w, h }`. -/
structure Obstacle where
  x : ℚ
  type : ℕ
  w : ℚ
  h : ℚ
deriving Repr, DecidableEq

/-- The mutable aggregate held in `gRef.current` (`makeState`'s shape). -/
structure GameState where
  w : ℚ
  h : ℚ
  gndY : ℚ
  phase : Phase
  score : ℚ
  hiScore : Option ℤ
  speed : ℚ
  t : ℚ
  char : CharState
  obs : List Obstacle
  nextGap : ℚ
  gndOff : ℚ
  farOff : ℚ
  nearOff : ℚ
  stars : List Star
  far : Layer
  near : Layer
  lastDisplayScore : ℤ
deriving Repr, DecidableEq

/-- The game state together with the `localStorage` key `da_hi`
(`none` = key absent). -/
structure World where
  g : GameState
  store : Option String
deriving Repr, DecidableEq

/-- The random draws one `makeState` consumes: a stream per generator
call, in call order (stars, far skyline, near skyline). -/
structure MakeRand where
  stars : ℕ → ℚ
  far : ℕ → ℚ
  near : ℕ → ℚ

/-- The random/oracle inputs one frame of `loop` may consume. -/
structure FrameRand where
  /-- draw for `Math.floor(Math.random() * CACTUS_DEFS.length)`. -/
  rType : ℚ
  /-- draw for the pixel gap `MIN_GAP_PX + Math.random() * (MAX_GAP_PX - MIN_GAP_PX)`. -/
  rPx : ℚ
  /-- oracle for the transcendental `Math.sin(g.t * 0.012)`. -/
  sinBounce : ℚ

/-- Longest leading digit run of a character list, as a number;
`none` when there is no leading digit. -/
def leadingNat (cs : List Char) : Option ℕ :=
  let ds := cs.takeWhile Char.isDigit
  if ds.isEmpty then none
  else some (ds.foldl (fun a c => 10 * a + (c.toNat - 48)) 0)

/-- JS `parseInt(s, 10)`: skip leading whitespace, optional sign, then
the longest digit prefix; `NaN` (modelled `none`) when no digit follows. -/
def jsParseInt (s : String) : Option ℤ :=
  match s.data.dropWhile Char.isWhitespace with
  | '-' :: rest => (leadingNat rest).map fun n => -(n : ℤ)
  | '+' :: rest => (leadingNat rest).map fun n => (n : ℤ)
  | cs => (leadingNat cs).map fun n => (n : ℤ)

/-- JS `Math.max` on possibly-`NaN` integers: `NaN` propagates. -/
def jsMax : Option ℤ → Option ℤ → Option ℤ
  | some a, some b => some (max a b)
  | _, _ => none

/-- JS number-to-string coercion for the values written to storage
(always an integer or `NaN` here). -/
def jsNumToString : Option ℤ → String
  | some k => toString k
  | none => "NaN"

/-- The `hiScore` initialiser of `makeState`:
`parseInt(localStorage.getItem('da_hi') || '0', 10)`.  `||` replaces
both a missing key (`null`) and an empty string by `'0'`. -/
def loadHiScore (store : Option String) : Option ℤ :=
  let s := match store with
    | none => "0"
    | some s => if s = "" then "0" else s
  jsParseInt s

/-- `makeState()`: the fresh game state.  `w`/`h` are the current canvas
dimensions (set by `resize`), `store` the persisted `da_hi` value. -/
def makeState (w h : ℚ) (store : Option String) (mk : MakeRand) : GameState :=
  let gndY : ℚ := (⌊h * groundRatio⌋ : ℤ)
  { w := w, h := h, gndY := gndY
    phase := .intro
    score := 0
    hiScore := loadHiScore store
    speed := INIT_SPEED
    t := 0
    char :=
      { x := 110
        y := gndY - CHAR_H
        vy := 0
        grounded := true
        frame := 0
        frameTick := 0
        bounce := 0 }
    obs := []
    nextGap := 1400
    gndOff := 0
    farOff := 0
    nearOff := 0
    stars := genStars w gndY mk.stars
    far := genBuildings 50 30 65 45 120 mk.far
    near := genBuildings 35 55 110 80 210 mk.near
    lastDisplayScore := -1 }

/-- The `resize` handler, on the non-null `gRef.current` branch: stores
the new window dimensions, recomputes `gndY = ⌊height * groundRatio⌋`
and regenerates the star field.  `rs` is the draw stream of the
`genStars` call. -/
def resize (W H : ℚ) (rs : ℕ → ℚ) (g : GameState) : GameState :=
  { g with
    w := W
    h := H
    gndY := ((⌊H * groundRatio⌋ : ℤ) : ℚ)
    stars := genStars W ((⌊H * groundRatio⌋ : ℤ) : ℚ) rs }

/-- `doAction()`: the single logical input.  In `intro` it starts the
run; in `playing` it jumps iff grounded; in `gameover` it rebuilds the
state via `makeState`, restores the old `hiScore`, and resumes playing.
`mk` supplies the generator draws of the `makeState` call. -/
def doAction (mk : MakeRand) (wd : World) : World :=
  match wd.g.phase with
  | .intro => { wd with g := { wd.g with phase := .playing } }
  | .playing =>
    if wd.g.char.grounded then
      { wd with g := { wd.g with char := { wd.g.char with vy := JUMP_FORCE, grounded := false } } }
    else wd
  | .gameover =>
    let hi := wd.g.hiScore
    let g' := makeState wd.g.w wd.g.h wd.store mk
    { wd with g := { g' with hiScore := hi, phase := .playing } }

/-- JS `%` for the non-negative operands it is applied to
(`(g.gndOff + g.speed) % 55`): `a - b * ⌊a / b⌋`. -/
def jsMod (a b : ℚ) : ℚ := a - b * ⌊a / b⌋

/-- The animation block at the top of `loop`'s update section: advance
`frameTick` by `dt` and step the run-cycle frame when the tick budget of
the current animation rate is exceeded (frame advance suppressed in
`gameover`). -/
def animUpd (dt : ℚ) (g : GameState) : GameState :=
  let animFps :=
    if g.phase = .playing then min 16 (ANIM_FPS * (g.speed / INIT_SPEED))
    else ANIM_FPS
  let ch := { g.char with frameTick := g.char.frameTick + dt }
  let ch :=
    if ch.frameTick > 1000 / animFps then
      let ch :=
        if g.phase ≠ .gameover then { ch with frame := (ch.frame + 1) % RUN_FRAMES.length }
        else ch
      { ch with frameTick := ch.frameTick - 1000 / animFps }
    else ch
  { g with char := ch }

/-- Score/speed/clock lines of the `playing` block:
`t += dt; score += speed * dt * SCORE_RATE * 0.1;`
`speed = min(MAX_SPEED, INIT_SPEED + score * SPEED_RATE)`. -/
def updScoreSpeed (dt : ℚ) (g : GameState) : GameState :=
  let score := g.score + g.speed * dt * SCORE_RATE * 0.1
  { g with
    t := g.t + dt
    score := score
    speed := min MAX_SPEED (INIT_SPEED + score * SPEED_RATE) }

/-- Parallax scroll accumulators of the `playing` block. -/
def updScroll (g : GameState) : GameState :=
  { g with
    gndOff := jsMod (g.gndOff + g.speed) 55
    farOff := g.farOff + g.speed * 0.12
    nearOff := g.nearOff + g.speed * 0.38 }

/-- The physics lines: `vy += GRAVITY; y += vy;` clamp to
`floor = gndY - CHAR_H` (setting `vy = 0`, `grounded = true`), then the
cosmetic grounded bounce. -/
def updPhysics (r : FrameRand) (g : GameState) : GameState :=
  let ch := g.char
  let vy := ch.vy + GRAVITY
  let y := ch.y + vy
  let floor := g.gndY - CHAR_H
  let ch :=
    if y ≥ floor then { ch with y := floor, vy := 0, grounded := true }
    else { ch with y := y, vy := vy }
  let ch := { ch with bounce := if ch.grounded then r.sinBounce * 2.5 else 0 }
  { g with char := ch }

/-- The spawner: `nextGap -= dt`; when it reaches `≤ 0`, push one
obstacle at `x = w + 60` with a uniformly drawn silhouette and redraw
the countdown as `px / speed * (1000 / 60)` with
`px = MIN_GAP_PX + rPx * (MAX_GAP_PX - MIN_GAP_PX)`.  (`ℚ` division is
total; the JS behaviour at a zero speed is modelled by `jsDiv` below.) -/
def updSpawn (dt : ℚ) (r : FrameRand) (g : GameState) : GameState :=
  let g := { g with nextGap := g.nextGap - dt }
  if g.nextGap ≤ 0 then
    let type := (⌊r.rType * (CACTUS_DEFS.length : ℚ)⌋).toNat
    let sz := getCactusSize type
    let px := MIN_GAP_PX + r.rPx * (MAX_GAP_PX - MIN_GAP_PX)
    { g with
      obs := g.obs ++ [⟨g.w + 60, type, sz.1, sz.2⟩]
      nextGap := px / g.speed * (1000 / 60) }
  else g

/-- Horizontal obstacle translation and the cull filter:
`o.x -= speed` then keep those with `o.x + o.w > -60`. -/
def updMoveCull (g : GameState) : GameState :=
  { g with
    obs := (g.obs.map fun o => { o with x := o.x - g.speed }).filter
      fun o => o.x + o.w > -60 }

/-- The axis-aligned overlap test of the collision loop, with the
character hit-box inset `(12, 8, 12, 4)` from the sprite box and the
obstacle box inset by the margin 4. -/
def collides (gndY : ℚ) (ch : CharState) (o : Obstacle) : Bool :=
  let cLeft := ch.x + 12
  let cRight := ch.x + CHAR_W - 12
  let cTop := ch.y + 8
  let cBottom := ch.y + CHAR_H - 4
  let oTop := gndY - o.h
  cRight > o.x + 4 ∧ cLeft < o.x + o.w - 4 ∧ cBottom > oTop + 4 ∧ cTop < gndY

/-- The collision loop: the first obstacle in storage order that
overlaps (the `for`/`break`) flips the phase to `gameover`, commits
`hiScore = Math.max(hiScore, Math.floor(score))` and writes that value
to the `da_hi` storage key. -/
def updCollide (store : Option String) (g : GameState) : GameState × Option String :=
  match g.obs.find? (collides g.gndY g.char) with
  | some _ =>
    let newHi := jsMax g.hiScore (some ⌊g.score⌋)
    ({ g with phase := .gameover, hiScore := newHi }, some (jsNumToString newHi))
  | none => (g, store)

/-- The DOM score cache: remember `Math.floor(score)` when it changed. -/
def updDisplay (g : GameState) : GameState :=
  let disp := ⌊g.score⌋
  if disp ≠ g.lastDisplayScore then { g with lastDisplayScore := disp } else g

/-- The state reached by a `playing` frame just before the collision
loop runs: score/speed, scroll, physics, spawn, move and cull. -/
def midState (dt : ℚ) (r : FrameRand) (g : GameState) : GameState :=
  updMoveCull (updSpawn dt r (updPhysics r (updScroll (updScoreSpeed dt g))))

/-- The whole `if (playing)` block of `loop`'s update section. -/
def stepPlaying (dt : ℚ) (r : FrameRand) (store : Option String)
    (g : GameState) : GameState × Option String :=
  let (g', store') := updCollide store (midState dt r g)
  (updDisplay g', store')

/-- `dt = Math.min(ts - lastTs, 50)`: the driver's timestep clamp. -/
def clampDt (raw : ℚ) : ℚ := min raw 50

/-- One invocation of `loop`, restricted to its update half (the render
half only reads state): animation tick, then the gameplay block when
the phase is `playing`. -/
def step (dt : ℚ) (r : FrameRand) (wd : World) : World :=
  let g0 := animUpd dt wd.g
  if wd.g.phase = .playing then
    let (g', store') := stepPlaying dt r wd.store g0
    ⟨g', store'⟩
  else
    { wd with g := g0 }

/-- JS division restricted to finite results: a finite dividend over a
zero divisor yields `Infinity`/`NaN`, modelled `none`. -/
def jsDiv (a b : ℚ) : Option ℚ :=
  if b = 0 then none else some (a / b)

/-- The spawn-interval computation as JS evaluates it, with the
non-finiteness of a division by zero made explicit:
`(minGap + r * (maxGap - minGap)) / speed * (1000 / 60)`. -/
def nextGapDraw (minGap maxGap speed r : ℚ) : Option ℚ :=
  (jsDiv (minGap + r * (maxGap - minGap)) speed).map fun q => q * (1000 / 60)

/-! ### Concrete sample data (used to instantiate theorems) -/

/-- A frame with no elapsed randomness: all oracle draws are `0`. -/
def rEx : FrameRand := ⟨0, 0, 0⟩

/-- Generator draw streams that always return `0`. -/
def mkEx : MakeRand := ⟨fun _ => 0, fun _ => 0, fun _ => 0⟩

/-- A grounded character at the floor of a viewport with `gndY = 600`. -/
def chEx : CharState :=
  { x := 110, y := 504, vy := 0, grounded := true, frame := 0, frameTick := 0, bounce := 0 }

/-- An airborne character shortly after a jump. -/
def chAirEx : CharState :=
  { x := 110, y := 300, vy := -10, grounded := false, frame := 0, frameTick := 0, bounce := 0 }

/-- A type-0 obstacle 100 px from the left edge. -/
def oEx : Obstacle := ⟨100, 0, 49, 77⟩

/-- A mid-run `playing` state with one obstacle close to the character. -/
def gEx : GameState :=
  { w := 800, h := 789, gndY := 600, phase := .playing, score := 0, hiScore := some 7,
    speed := 5, t := 0, char := chEx, obs := [oEx], nextGap := 1000,
    gndOff := 0, farOff := 0, nearOff := 0, stars := [], far := ⟨[], 0⟩, near := ⟨[], 0⟩,
    lastDisplayScore := -1 }

/-- `gEx` together with a persisted high score of `7`. -/
def wEx : World := ⟨gEx, some "7"⟩

/-- The same run while the character is airborne. -/
def wAirEx : World := ⟨{ gEx with char := chAirEx }, some "7"⟩

/-- A `gameover` state reached from `gEx`. -/
def wOverEx : World := ⟨{ gEx with phase := .gameover, score := 30 }, some "7"⟩

/-! ### Frame-preservation lemmas for the update stages -/

@[simp] theorem animUpd_phase (dt : ℚ) (g : GameState) :
    (animUpd dt g).phase = g.phase := rfl

@[simp] theorem animUpd_gndY (dt : ℚ) (g : GameState) :
    (animUpd dt g).gndY = g.gndY := rfl

@[simp] theorem animUpd_score (dt : ℚ) (g : GameState) :
    (animUpd dt g).score = g.score := rfl

@[simp] theorem animUpd_speed (dt : ℚ) (g : GameState) :
    (animUpd dt g).speed = g.speed := rfl

@[simp] theorem animUpd_hiScore (dt : ℚ) (g : GameState) :
    (animUpd dt g).hiScore = g.hiScore := rfl

@[simp] theorem animUpd_obs (dt : ℚ) (g : GameState) :
    (animUpd dt g).obs = g.obs := rfl

@[simp] theorem animUpd_w (dt : ℚ) (g : GameState) :
    (animUpd dt g).w = g.w := rfl

@[simp] theorem animUpd_nextGap (dt : ℚ) (g : GameState) :
    (animUpd dt g).nextGap = g.nextGap := rfl

@[simp] theorem animUpd_char_y (dt : ℚ) (g : GameState) :
    (animUpd dt g).char.y = g.char.y := by
  simp only [animUpd]; split_ifs <;> rfl

@[simp] theorem animUpd_char_vy (dt : ℚ) (g : GameState) :
    (animUpd dt g).char.vy = g.char.vy := by
  simp only [animUpd]; split_ifs <;> rfl

@[simp] theorem animUpd_char_x (dt : ℚ) (g : GameState) :
    (animUpd dt g).char.x = g.char.x := by
  simp only [animUpd]; split_ifs <;> rfl

@[simp] theorem animUpd_char_grounded (dt : ℚ) (g : GameState) :
    (animUpd dt g).char.grounded = g.char.grounded := by
  simp only [animUpd]; split_ifs <;> rfl

@[simp] theorem updScoreSpeed_phase (dt : ℚ) (g : GameState) :
    (updScoreSpeed dt g).phase = g.phase := rfl

@[simp] theorem updScoreSpeed_gndY (dt : ℚ) (g : GameState) :
    (updScoreSpeed dt g).gndY = g.gndY := rfl

@[simp] theorem updScoreSpeed_char (dt : ℚ) (g : GameState) :
    (updScoreSpeed dt g).char = g.char := rfl

@[simp] theorem updScoreSpeed_hiScore (dt : ℚ) (g : GameState) :
    (updScoreSpeed dt g).hiScore = g.hiScore := rfl

@[simp] theorem updScoreSpeed_obs (dt : ℚ) (g : GameState) :
    (updScoreSpeed dt g).obs = g.obs := rfl

@[simp] theorem updScoreSpeed_w (dt : ℚ) (g : GameState) :
    (updScoreSpeed dt g).w = g.w := rfl

@[simp] theorem updScoreSpeed_nextGap (dt : ℚ) (g : GameState) :
    (updScoreSpeed dt g).nextGap = g.nextGap := rfl

theorem updScoreSpeed_score (dt : ℚ) (g : GameState) :
    (updScoreSpeed dt g).score = g.score + g.speed * dt * SCORE_RATE * 0.1 := rfl

theorem updScoreSpeed_speed (dt : ℚ) (g : GameState) :
    (updScoreSpeed dt g).speed
      = min MAX_SPEED (INIT_SPEED + (updScoreSpeed dt g).score * SPEED_RATE) := rfl

@[simp] theorem updScroll_phase (g : GameState) : (updScroll g).phase = g.phase := rfl

@[simp] theorem updScroll_gndY (g : GameState) : (updScroll g).gndY = g.gndY := rfl

@[simp] theorem updScroll_char (g : GameState) : (updScroll g).char = g.char := rfl

@[simp] theorem updScroll_score (g : GameState) : (updScroll g).score = g.score := rfl

@[simp] theorem updScroll_speed (g : GameState) : (updScroll g).speed = g.speed := rfl

@[simp] theorem updScroll_hiScore (g : GameState) : (updScroll g).hiScore = g.hiScore := rfl

@[simp] theorem updScroll_obs (g : GameState) : (updScroll g).obs = g.obs := rfl

@[simp] theorem updScroll_w (g : GameState) : (updScroll g).w = g.w := rfl

@[simp] theorem updScroll_nextGap (g : GameState) : (updScroll g).nextGap = g.nextGap := rfl

@[simp] theorem updPhysics_phase (r : FrameRand) (g : GameState) :
    (updPhysics r g).phase = g.phase := rfl

@[simp] theorem updPhysics_gndY (r : FrameRand) (g : GameState) :
    (updPhysics r g).gndY = g.gndY := rfl

@[simp] theorem updPhysics_score (r : FrameRand) (g : GameState) :
    (updPhysics r g).score = g.score := rfl

@[simp] theorem updPhysics_speed (r : FrameRand) (g : GameState) :
    (updPhysics r g).speed = g.speed := rfl

@[simp] theorem updPhysics_hiScore (r : FrameRand) (g : GameState) :
    (updPhysics r g).hiScore = g.hiScore := rfl

@[simp] theorem updPhysics_obs (r : FrameRand) (g : GameState) :
    (updPhysics r g).obs = g.obs := rfl

@[simp] theorem updPhysics_w (r : FrameRand) (g : GameState) :
    (updPhysics r g).w = g.w := rfl

@[simp] theorem updPhysics_nextGap (r : FrameRand) (g : GameState) :
    (updPhysics r g).nextGap = g.nextGap := rfl

theorem updPhysics_char_y (r : FrameRand) (g : GameState) :
    (updPhysics r g).char.y
      = if g.char.y + (g.char.vy + GRAVITY) ≥ g.gndY - CHAR_H
          then g.gndY - CHAR_H else g.char.y + (g.char.vy + GRAVITY) := by
  simp only [updPhysics]; split_ifs <;> rfl

theorem updPhysics_char_vy (r : FrameRand) (g : GameState) :
    (updPhysics r g).char.vy
      = if g.char.y + (g.char.vy + GRAVITY) ≥ g.gndY - CHAR_H
          then 0 else g.char.vy + GRAVITY := by
  simp only [updPhysics]; split_ifs <;> rfl

theorem updPhysics_char_grounded (r : FrameRand) (g : GameState) :
    (updPhysics r g).char.grounded
      = if g.char.y + (g.char.vy + GRAVITY) ≥ g.gndY - CHAR_H
          then true else g.char.grounded := by
  simp only [updPhysics]; split_ifs <;> rfl

@[simp] theorem updPhysics_char_x (r : FrameRand) (g : GameState) :
    (updPhysics r g).char.x = g.char.x := by
  simp only [updPhysics]; split_ifs <;> rfl

@[simp] theorem updSpawn_phase (dt : ℚ) (r : FrameRand) (g : GameState) :
    (updSpawn dt r g).phase = g.phase := by
  simp only [updSpawn]; split_ifs <;> rfl

@[simp] theorem updSpawn_gndY (dt : ℚ) (r : FrameRand) (g : GameState) :
    (updSpawn dt r g).gndY = g.gndY := by
  simp only [updSpawn]; split_ifs <;> rfl

@[simp] theorem updSpawn_char (dt : ℚ) (r : FrameRand) (g : GameState) :
    (updSpawn dt r g).char = g.char := by
  simp only [updSpawn]; split_ifs <;> rfl

@[simp] theorem updSpawn_score (dt : ℚ) (r : FrameRand) (g : GameState) :
    (updSpawn dt r g).score = g.score := by
  simp only [updSpawn]; split_ifs <;> rfl

@[simp] theorem updSpawn_speed (dt : ℚ) (r : FrameRand) (g : GameState) :
    (updSpawn dt r g).speed = g.speed := by
  simp only [updSpawn]; split_ifs <;> rfl

@[simp] theorem updSpawn_hiScore (dt : ℚ) (r : FrameRand) (g : GameState) :
    (updSpawn dt r g).hiScore = g.hiScore := by
  simp only [updSpawn]; split_ifs <;> rfl

@[simp] theorem updMoveCull_phase (g : GameState) : (updMoveCull g).phase = g.phase := rfl

@[simp] theorem updMoveCull_gndY (g : GameState) : (updMoveCull g).gndY = g.gndY := rfl

@[simp] theorem updMoveCull_char (g : GameState) : (updMoveCull g).char = g.char := rfl

@[simp] theorem updMoveCull_score (g : GameState) : (updMoveCull g).score = g.score := rfl

@[simp] theorem updMoveCull_speed (g : GameState) : (updMoveCull g).speed = g.speed := rfl

@[simp] theorem updMoveCull_hiScore (g : GameState) :
    (updMoveCull g).hiScore = g.hiScore := rfl

theorem updCollide_fst_char (store : Option String) (g : GameState) :
    (updCollide store g).1.char = g.char := by
  unfold updCollide; split <;> rfl

theorem updCollide_fst_gndY (store : Option String) (g : GameState) :
    (updCollide store g).1.gndY = g.gndY := by
  unfold updCollide; split <;> rfl

theorem updCollide_fst_score (store : Option String) (g : GameState) :
    (updCollide store g).1.score = g.score := by
  unfold updCollide; split <;> rfl

theorem updCollide_fst_speed (store : Option String) (g : GameState) :
    (updCollide store g).1.speed = g.speed := by
  unfold updCollide; split <;> rfl

@[simp] theorem updDisplay_char (g : GameState) : (updDisplay g).char = g.char := by
  simp only [updDisplay]; split_ifs <;> rfl

@[simp] theorem updDisplay_phase (g : GameState) : (updDisplay g).phase = g.phase := by
  simp only [updDisplay]; split_ifs <;> rfl

@[simp] theorem updDisplay_gndY (g : GameState) : (updDisplay g).gndY = g.gndY := by
  simp only [updDisplay]; split_ifs <;> rfl

@[simp] theorem updDisplay_score (g : GameState) : (updDisplay g).score = g.score := by
  simp only [updDisplay]; split_ifs <;> rfl

@[simp] theorem updDisplay_speed (g : GameState) : (updDisplay g).speed = g.speed := by
  simp only [updDisplay]; split_ifs <;> rfl

@[simp] theorem updDisplay_hiScore (g : GameState) :
    (updDisplay g).hiScore = g.hiScore := by
  simp only [updDisplay]; split_ifs <;> rfl

/-- A `playing` frame leaves `gndY` untouched. -/
theorem step_gndY_playing (dt : ℚ) (r : FrameRand) (wd : World)
    (hph : wd.g.phase = .playing) :
    (step dt r wd).g.gndY = wd.g.gndY := by
  unfold step stepPlaying midState
  simp [hph, updCollide_fst_gndY]

/-- The character record of a `playing` frame is exactly the physics
stage applied to the animation-ticked character. -/
theorem step_char_playing (dt : ℚ) (r : FrameRand) (wd : World)
    (hph : wd.g.phase = .playing) :
    (step dt r wd).g.char
      = (updPhysics r (updScroll (updScoreSpeed dt (animUpd dt wd.g)))).char := by
  unfold step stepPlaying midState
  simp [hph, updCollide_fst_char]

/-- Score evolution of a `playing` frame. -/
theorem step_score_playing (dt : ℚ) (r : FrameRand) (wd : World)
    (hph : wd.g.phase = .playing) :
    (step dt r wd).g.score = wd.g.score + wd.g.speed * dt * SCORE_RATE * 0.1 := by
  unfold step stepPlaying midState
  simp [hph, updCollide_fst_score, updScoreSpeed_score]

/-- Speed evolution of a `playing` frame: speed is recomputed from the
just-updated score. -/
theorem step_speed_playing (dt : ℚ) (r : FrameRand) (wd : World)
    (hph : wd.g.phase = .playing) :
    (step dt r wd).g.speed
      = min MAX_SPEED (INIT_SPEED
          + (wd.g.score + wd.g.speed * dt * SCORE_RATE * 0.1) * SPEED_RATE) := by
  unfold step stepPlaying midState
  simp [hph, updCollide_fst_speed, updScoreSpeed, updScoreSpeed_score]

/-- A non-`playing` frame only ticks the animation. -/
theorem step_not_playing (dt : ℚ) (r : FrameRand) (wd : World)
    (hph : wd.g.phase ≠ .playing) :
    step dt r wd = { wd with g := animUpd dt wd.g } := by
  unfold step
  simp [hph]

/-!  C1  -/

/-- C1: in every `playing` frame with `dt ≥ 0`, after the physics
integration (`vy += GRAVITY; y += vy`; floor clamp) the character
satisfies `y ≤ floorY` with `floorY = gndY - CHAR_H`, and whenever the
clamp fires its velocity is zeroed and it is grounded. -/
theorem ground_clamp_invariant (dt : ℚ) (r : FrameRand) (wd : World)
    (hph : wd.g.phase = .playing) (hdt : 0 ≤ dt) :
    (step dt r wd).g.char.y ≤ wd.g.gndY - CHAR_H ∧
    (wd.g.char.y + (wd.g.char.vy + GRAVITY) ≥ wd.g.gndY - CHAR_H →
      (step dt r wd).g.char.vy = 0 ∧ (step dt r wd).g.char.grounded = true) := by
  have hc := step_char_playing dt r wd hph
  refine ⟨?_, fun hclamp => ⟨?_, ?_⟩⟩
  · rw [hc, updPhysics_char_y]
    simp only [updScroll_gndY, updScoreSpeed_gndY, animUpd_gndY, updScroll_char,
      updScoreSpeed_char, animUpd_char_y, animUpd_char_vy]
    split_ifs with h
    · exact le_refl _
    · linarith [not_le.mp (fun hle => h hle)]
  · rw [hc, updPhysics_char_vy]
    simp only [updScroll_gndY, updScoreSpeed_gndY, animUpd_gndY, updScroll_char,
      updScoreSpeed_char, animUpd_char_y, animUpd_char_vy]
    exact if_pos hclamp
  · rw [hc, updPhysics_char_grounded]
    simp only [updScroll_gndY, updScoreSpeed_gndY, animUpd_gndY, updScroll_char,
      updScoreSpeed_char, animUpd_char_y, animUpd_char_vy]
    exact if_pos hclamp

/-- Witness for C1 at a concrete grounded frame. -/
theorem ground_clamp_invariant_witness :
    wEx.g.phase = .playing ∧ (0:ℚ) ≤ 0 ∧
    ((step 0 rEx wEx).g.char.y ≤ wEx.g.gndY - CHAR_H ∧
     (wEx.g.char.y + (wEx.g.char.vy + GRAVITY) ≥ wEx.g.gndY - CHAR_H →
       (step 0 rEx wEx).g.char.vy = 0 ∧ (step 0 rEx wEx).g.char.grounded = true)) :=
  ⟨rfl, le_refl 0, ground_clamp_invariant 0 rEx wEx rfl (le_refl 0)⟩

/-!  C4  -/

/-- C4: in a `playing` frame starting from the speed invariant
`speed = min(maxSpeed, initSpeed + score * speedRate)` and a
non-negative score, the frame re-establishes both (making the
conjunction inductive along a run), never decreases the speed, and
keeps it at most `MAX_SPEED`; and `makeState` establishes the base
case, so the invariant holds always within a run. -/
theorem speed_monotone_capped (dt : ℚ) (r : FrameRand) (wd : World)
    (w h : ℚ) (store : Option String) (mk : MakeRand)
    (hph : wd.g.phase = .playing) (hdt : 0 ≤ dt) (hsc : 0 ≤ wd.g.score)
    (hsp : wd.g.speed = min MAX_SPEED (INIT_SPEED + wd.g.score * SPEED_RATE)) :
    ((step dt r wd).g.speed
        = min MAX_SPEED (INIT_SPEED + (step dt r wd).g.score * SPEED_RATE) ∧
     0 ≤ (step dt r wd).g.score) ∧
    wd.g.speed ≤ (step dt r wd).g.speed ∧
    (step dt r wd).g.speed ≤ MAX_SPEED ∧
    ((makeState w h store mk).score = 0 ∧
     (makeState w h store mk).speed
        = min MAX_SPEED (INIT_SPEED + (makeState w h store mk).score * SPEED_RATE)) := by
  have hscore := step_score_playing dt r wd hph
  have hspeed := step_speed_playing dt r wd hph
  have hspos : 0 < wd.g.speed := by
    rw [hsp]
    apply lt_min
    · norm_num [MAX_SPEED]
    · have : 0 ≤ wd.g.score * SPEED_RATE := by
        apply mul_nonneg hsc
        norm_num [SPEED_RATE]
      norm_num [INIT_SPEED]
      linarith
  have hterm : 0 ≤ wd.g.speed * dt * SCORE_RATE * 0.1 := by
    apply mul_nonneg
    apply mul_nonneg
    exact mul_nonneg hspos.le hdt
    · norm_num [SCORE_RATE]
    · norm_num
  refine ⟨⟨?_, ?_⟩, ?_, ?_, ?_, ?_⟩
  · rw [hspeed, hscore]
  · rw [hscore]
    linarith
  · rw [hsp, hspeed]
    refine min_le_min le_rfl (add_le_add_left ?_ INIT_SPEED)
    refine mul_le_mul_of_nonneg_right ?_ (by norm_num [SPEED_RATE])
    linarith
  · rw [hspeed]
    exact min_le_left _ _
  · rfl
  · norm_num [makeState, MAX_SPEED, INIT_SPEED, SPEED_RATE]

/-- Witness for C4 at a concrete frame with `dt = 1`. -/
theorem speed_monotone_capped_witness :
    wEx.g.phase = .playing ∧ (0:ℚ) ≤ 1 ∧ (0:ℚ) ≤ wEx.g.score ∧
    wEx.g.speed = min MAX_SPEED (INIT_SPEED + wEx.g.score * SPEED_RATE) ∧
    (((step 1 rEx wEx).g.speed
        = min MAX_SPEED (INIT_SPEED + (step 1 rEx wEx).g.score * SPEED_RATE) ∧
      0 ≤ (step 1 rEx wEx).g.score) ∧
     wEx.g.speed ≤ (step 1 rEx wEx).g.speed ∧
     (step 1 rEx wEx).g.speed ≤ MAX_SPEED ∧
     ((makeState 800 789 (some "7") mkEx).score = 0 ∧
      (makeState 800 789 (some "7") mkEx).speed
        = min MAX_SPEED
            (INIT_SPEED + (makeState 800 789 (some "7") mkEx).score * SPEED_RATE))) :=
  ⟨rfl, by norm_num, by norm_num [wEx, gEx],
   by norm_num [wEx, gEx, MAX_SPEED, INIT_SPEED, SPEED_RATE],
   speed_monotone_capped 1 rEx wEx 800 789 (some "7") mkEx rfl (by norm_num)
     (by norm_num [wEx, gEx])
     (by norm_num [wEx, gEx, MAX_SPEED, INIT_SPEED, SPEED_RATE])⟩

/-!  C5  -/

/-- C5: in the `playing` phase an action-press jumps
(`vy = JUMP_FORCE`, `grounded = false`) iff the character is grounded;
airborne presses leave the whole world unchanged. -/
theorem jump_only_when_grounded (mk : MakeRand) (wd : World)
    (hph : wd.g.phase = .playing) :
    (wd.g.char.grounded = true →
      doAction mk wd
        = { wd with g := { wd.g with
              char := { wd.g.char with vy := JUMP_FORCE, grounded := false } } }) ∧
    (wd.g.char.grounded = false → doAction mk wd = wd) := by
  constructor <;> intro h <;> simp [doAction, hph, h]

/-- Witness for C5: a grounded press applies the impulse; an airborne
press is the identity. -/
theorem jump_only_when_grounded_witness :
    doAction mkEx wEx
      = { wEx with g := { wEx.g with
            char := { wEx.g.char with vy := JUMP_FORCE, grounded := false } } } ∧
    doAction mkEx wAirEx = wAirEx :=
  ⟨(jump_only_when_grounded mkEx wEx rfl).1 rfl,
   (jump_only_when_grounded mkEx wAirEx rfl).2 rfl⟩

/-!  C6  -/

/-- C6: the retry action from `gameover` rebuilds the state: score `0`,
speed `INIT_SPEED`, phase `playing`, and the high score carried over
unchanged. -/
theorem retry_resets_run (mk : MakeRand) (wd : World)
    (hph : wd.g.phase = .gameover) :
    (doAction mk wd).g.score = 0 ∧
    (doAction mk wd).g.speed = INIT_SPEED ∧
    (doAction mk wd).g.phase = .playing ∧
    (doAction mk wd).g.hiScore = wd.g.hiScore := by
  simp [doAction, hph, makeState]

/-- Witness for C6 at a concrete `gameover` state. -/
theorem retry_resets_run_witness :
    wOverEx.g.phase = .gameover ∧
    ((doAction mkEx wOverEx).g.score = 0 ∧
     (doAction mkEx wOverEx).g.speed = INIT_SPEED ∧
     (doAction mkEx wOverEx).g.phase = .playing ∧
     (doAction mkEx wOverEx).g.hiScore = wOverEx.g.hiScore) :=
  ⟨rfl, retry_resets_run mkEx wOverEx rfl⟩

/-!  C3  -/

/-- C3: both operations of the process — a frame of `loop` (any phase)
and an action-press (start, jump or retry) — leave `hiScore` at least
its previous integer value. -/
theorem hiScore_monotone (dt : ℚ) (r : FrameRand) (mk : MakeRand) (wd : World)
    (n : ℤ) (hhi : wd.g.hiScore = some n) :
    (∃ m : ℤ, (step dt r wd).g.hiScore = some m ∧ n ≤ m) ∧
    (doAction mk wd).g.hiScore = some n := by
  constructor
  · by_cases hph : wd.g.phase = .playing
    · have hstep : (step dt r wd).g.hiScore
          = (updCollide wd.store (midState dt r (animUpd dt wd.g))).1.hiScore := by
        unfold step stepPlaying
        simp [hph]
      have hmhi : (midState dt r (animUpd dt wd.g)).hiScore = some n := by
        unfold midState
        simp [hhi]
      rw [hstep]
      unfold updCollide
      cases hf : (midState dt r (animUpd dt wd.g)).obs.find?
          (collides (midState dt r (animUpd dt wd.g)).gndY
            (midState dt r (animUpd dt wd.g)).char) with
      | none => exact ⟨n, by simp [hmhi], le_refl n⟩
      | some o =>
        refine ⟨max n ⌊(midState dt r (animUpd dt wd.g)).score⌋, ?_, le_max_left _ _⟩
        simp [hmhi, jsMax]
    · rw [step_not_playing dt r wd hph]
      exact ⟨n, hhi, le_refl n⟩
  · unfold doAction
    cases hph : wd.g.phase with
    | intro => simpa using hhi
    | playing =>
      by_cases hg : wd.g.char.grounded <;> simp [hg] <;> exact hhi
    | gameover => simpa using hhi

/-- Witness for C3 at a concrete world with `hiScore = 7`. -/
theorem hiScore_monotone_witness :
    wEx.g.hiScore = some 7 ∧
    ((∃ m : ℤ, (step 0 rEx wEx).g.hiScore = some m ∧ 7 ≤ m) ∧
     (doAction mkEx wEx).g.hiScore = some 7) :=
  ⟨rfl, hiScore_monotone 0 rEx mkEx wEx 7 rfl⟩

/-!  C2  -/

/-- C2: when, in a `playing` frame, some live obstacle (after this
frame's movement and culling) overlaps the character's hit-box, that
frame ends in `gameover` with
`hiScore = max(hiScore, floor(score))` committed and exactly that value
written to the persistent `da_hi` key. -/
theorem collision_commits_gameover (dt : ℚ) (r : FrameRand) (wd : World) (n : ℤ)
    (hph : wd.g.phase = .playing) (hhi : wd.g.hiScore = some n)
    (hcol : ∃ o ∈ (midState dt r (animUpd dt wd.g)).obs,
        collides (midState dt r (animUpd dt wd.g)).gndY
          (midState dt r (animUpd dt wd.g)).char o = true) :
    (step dt r wd).g.phase = .gameover ∧
    (step dt r wd).g.hiScore = some (max n ⌊(step dt r wd).g.score⌋) ∧
    (step dt r wd).store = some (toString (max n ⌊(step dt r wd).g.score⌋)) := by
  have hstep : step dt r wd
      = ⟨updDisplay (updCollide wd.store (midState dt r (animUpd dt wd.g))).1,
         (updCollide wd.store (midState dt r (animUpd dt wd.g))).2⟩ := by
    unfold step stepPlaying
    simp [hph]
  have hmhi : (midState dt r (animUpd dt wd.g)).hiScore = some n := by
    unfold midState
    simp [hhi]
  have hfind : ((midState dt r (animUpd dt wd.g)).obs.find?
      (collides (midState dt r (animUpd dt wd.g)).gndY
        (midState dt r (animUpd dt wd.g)).char)).isSome := by
    rw [List.find?_isSome]
    simpa using hcol
  obtain ⟨o, ho⟩ := Option.isSome_iff_exists.mp hfind
  rw [hstep]
  simp only [updDisplay_phase, updDisplay_hiScore, updDisplay_score]
  unfold updCollide
  simp only [ho]
  refine ⟨?_, ?_, ?_⟩ <;> simp [hmhi, jsMax, jsNumToString]

/-- Witness for C2: a concrete overlapping frame. -/
theorem collision_commits_gameover_witness :
    wEx.g.phase = .playing ∧ wEx.g.hiScore = some 7 ∧
    (∃ o ∈ (midState 0 rEx (animUpd 0 wEx.g)).obs,
        collides (midState 0 rEx (animUpd 0 wEx.g)).gndY
          (midState 0 rEx (animUpd 0 wEx.g)).char o = true) ∧
    ((step 0 rEx wEx).g.phase = .gameover ∧
     (step 0 rEx wEx).g.hiScore = some (max 7 ⌊(step 0 rEx wEx).g.score⌋) ∧
     (step 0 rEx wEx).store = some (toString (max 7 ⌊(step 0 rEx wEx).g.score⌋))) := by
  have hcol : ∃ o ∈ (midState 0 rEx (animUpd 0 wEx.g)).obs,
      collides (midState 0 rEx (animUpd 0 wEx.g)).gndY
        (midState 0 rEx (animUpd 0 wEx.g)).char o = true := by
    norm_num [midState, updMoveCull, updSpawn, updPhysics, updScroll, updScoreSpeed,
      animUpd, collides, wEx, gEx, chEx, oEx, rEx, GRAVITY, CHAR_H, CHAR_W, jsRound,
      FRAME_W, FRAME_H, ANIM_FPS, INIT_SPEED, MAX_SPEED, SPEED_RATE, SCORE_RATE,
      jsMod, min_def]
  exact ⟨rfl, rfl, hcol, collision_commits_gameover 0 rEx wEx 7 rfl rfl hcol⟩

/-!  C9  -/

/-- C9: the overlap test is exactly the four-inequality margin-4
formula, the first overlapping obstacle in storage order is the one the
collision loop reports (independent of every obstacle after it, i.e.
the scan short-circuits), and a reported overlap flips the phase to
`gameover`. -/
theorem collision_formula_first_hit :
    (∀ (gndY : ℚ) (ch : CharState) (o : Obstacle),
      collides gndY ch o = true ↔
        (ch.x + CHAR_W - 12 > o.x + 4 ∧ ch.x + 12 < o.x + o.w - 4 ∧
         ch.y + CHAR_H - 4 > gndY - o.h + 4 ∧ ch.y + 8 < gndY)) ∧
    (∀ (gndY : ℚ) (ch : CharState) (pre tail : List Obstacle) (o : Obstacle),
      (∀ o' ∈ pre, collides gndY ch o' = false) →
      collides gndY ch o = true →
      (pre ++ o :: tail).find? (collides gndY ch) = some o) ∧
    (∀ (store : Option String) (g : GameState),
      (g.obs.find? (collides g.gndY g.char)).isSome →
      (updCollide store g).1.phase = .gameover) := by
  refine ⟨?_, ?_, ?_⟩
  · intro gndY ch o
    simp [collides]
  · intro gndY ch pre tail o hpre ho
    induction pre with
    | nil => simp [List.find?_cons, ho]
    | cons a l ih =>
      have ha : collides gndY ch a = false := hpre a (List.mem_cons_self a l)
      simpa [List.find?_cons, ha] using
        ih fun o' h' => hpre o' (List.mem_cons_of_mem a h')
  · intro store g hf
    obtain ⟨o, ho⟩ := Option.isSome_iff_exists.mp hf
    unfold updCollide
    simp [ho]

/-- Witness for C9: the singleton obstacle list reports that obstacle. -/
theorem collision_formula_first_hit_witness :
    collides 600 chEx oEx = true ∧
    (([] ++ oEx :: []).find? (collides 600 chEx) = some oEx) := by
  have h : collides 600 chEx oEx = true := by
    norm_num [collides, chEx, oEx, CHAR_W, CHAR_H, jsRound, FRAME_W, FRAME_H]
  exact ⟨h, collision_formula_first_hit.2.1 600 chEx [] [] oEx (by simp) h⟩

/-!  C10  -/

/-- C10: resizing twice with the same window dimensions yields the same
`gndY = ⌊height * groundRatio⌋` both times, a star field of exactly 180
elements both times, and touches neither `score` nor `phase`. -/
theorem resize_idempotent (g : GameState) (W H : ℚ) (r1 r2 : ℕ → ℚ) :
    (resize W H r2 (resize W H r1 g)).gndY = (resize W H r1 g).gndY ∧
    (resize W H r1 g).stars.length = 180 ∧
    (resize W H r2 (resize W H r1 g)).stars.length = 180 ∧
    (resize W H r1 g).score = g.score ∧
    (resize W H r2 (resize W H r1 g)).score = g.score ∧
    (resize W H r1 g).phase = g.phase ∧
    (resize W H r2 (resize W H r1 g)).phase = g.phase := by
  refine ⟨rfl, ?_, ?_, rfl, rfl, rfl, rfl⟩ <;> simp [resize, genStars]

/-!  C7  -/

@[simp] theorem updDisplay_obs (g : GameState) : (updDisplay g).obs = g.obs := by
  simp only [updDisplay]; split_ifs <;> rfl

theorem updCollide_fst_obs (store : Option String) (g : GameState) :
    (updCollide store g).1.obs = g.obs := by
  unfold updCollide; split <;> rfl

theorem updSpawn_obs_length (dt : ℚ) (r : FrameRand) (g : GameState) :
    (updSpawn dt r g).obs.length ≤ g.obs.length + 1 := by
  simp only [updSpawn]
  split_ifs <;> simp

theorem updMoveCull_obs_length (g : GameState) :
    (updMoveCull g).obs.length ≤ g.obs.length := by
  simp only [updMoveCull]
  exact le_trans (List.length_filter_le _ _) (by simp)

/-- The obstacle list of a `playing` frame is settled before the
collision scan. -/
theorem step_obs_playing (dt : ℚ) (r : FrameRand) (wd : World)
    (hph : wd.g.phase = .playing) :
    (step dt r wd).g.obs = (midState dt r (animUpd dt wd.g)).obs := by
  unfold step stepPlaying
  simp [hph, updCollide_fst_obs]

/-- One frame grows the obstacle list by at most the single obstacle
the `if (g.nextGap <= 0)` branch can push. -/
theorem midState_obs_length (dt : ℚ) (r : FrameRand) (g : GameState) :
    (midState dt r g).obs.length ≤ g.obs.length + 1 := by
  unfold midState
  refine le_trans (updMoveCull_obs_length _) (le_trans (updSpawn_obs_length _ _ _) ?_)
  simp

/-- The speed invariant `speed = min(maxSpeed, initSpeed + score * speedRate)`
forces a positive speed whenever the score is non-negative. -/
theorem speed_invariant_pos (g : GameState) (hsc : 0 ≤ g.score)
    (hsp : g.speed = min MAX_SPEED (INIT_SPEED + g.score * SPEED_RATE)) :
    0 < g.speed := by
  rw [hsp]
  apply lt_min
  · norm_num [MAX_SPEED]
  · have : 0 ≤ g.score * SPEED_RATE := mul_nonneg hsc (by norm_num [SPEED_RATE])
    norm_num [INIT_SPEED]
    linarith

/-- C7 counterexample: the spawn-interval computation
`(minGap + r * (maxGap - minGap)) / speed * (1000 / 60)` contains no
defensive clamp, so the degenerate configuration value `speed = 0`
makes it divide by zero: the JS result is non-finite (modelled `none`). -/
theorem spawn_zero_speed_divides_by_zero :
    nextGapDraw MIN_GAP_PX MAX_GAP_PX 0 (1/2) = none := by
  simp [nextGapDraw, jsDiv]

/-- C7 amended: the spawn-interval computation has no defensive clamps,
but (a) in every state satisfying the reachable-state speed invariant
the updated speed stays positive, so the divisor is nonzero and the
computation is finite and agrees with the exact model, and (b) the
spawner is a single `if` per frame — at most one obstacle is pushed —
so no configuration can produce an infinite spawn loop. -/
theorem spawn_interval_reachable_guarded (dt : ℚ) (r : FrameRand) (wd : World)
    (hdt : 0 ≤ dt) (hsc : 0 ≤ wd.g.score)
    (hsp : wd.g.speed = min MAX_SPEED (INIT_SPEED + wd.g.score * SPEED_RATE)) :
    0 < (step dt r wd).g.speed ∧
    nextGapDraw MIN_GAP_PX MAX_GAP_PX (step dt r wd).g.speed r.rPx
      = some ((MIN_GAP_PX + r.rPx * (MAX_GAP_PX - MIN_GAP_PX))
          / (step dt r wd).g.speed * (1000 / 60)) ∧
    (step dt r wd).g.obs.length ≤ wd.g.obs.length + 1 := by
  have hspos : 0 < wd.g.speed := speed_invariant_pos wd.g hsc hsp
  have hspos' : 0 < (step dt r wd).g.speed := by
    by_cases hph : wd.g.phase = .playing
    · rw [step_speed_playing dt r wd hph]
      apply lt_min
      · norm_num [MAX_SPEED]
      · have hterm : 0 ≤ wd.g.speed * dt * SCORE_RATE * 0.1 := by
          refine mul_nonneg (mul_nonneg (mul_nonneg hspos.le hdt) ?_) (by norm_num)
          norm_num [SCORE_RATE]
        have : 0 ≤ (wd.g.score + wd.g.speed * dt * SCORE_RATE * 0.1) * SPEED_RATE := by
          refine mul_nonneg (by linarith) (by norm_num [SPEED_RATE])
        norm_num [INIT_SPEED]
        linarith
    · rw [step_not_playing dt r wd hph]
      simpa using hspos
  refine ⟨hspos', ?_, ?_⟩
  · simp [nextGapDraw, jsDiv, ne_of_gt hspos']
  · by_cases hph : wd.g.phase = .playing
    · rw [step_obs_playing dt r wd hph]
      simpa using midState_obs_length dt r (animUpd dt wd.g)
    · rw [step_not_playing dt r wd hph]
      simp

/-- Witness for C7 at a concrete frame. -/
theorem spawn_interval_reachable_guarded_witness :
    (0:ℚ) ≤ 1 ∧ (0:ℚ) ≤ wEx.g.score ∧
    wEx.g.speed = min MAX_SPEED (INIT_SPEED + wEx.g.score * SPEED_RATE) ∧
    (0 < (step 1 rEx wEx).g.speed ∧
     nextGapDraw MIN_GAP_PX MAX_GAP_PX (step 1 rEx wEx).g.speed rEx.rPx
       = some ((MIN_GAP_PX + rEx.rPx * (MAX_GAP_PX - MIN_GAP_PX))
           / (step 1 rEx wEx).g.speed * (1000 / 60)) ∧
     (step 1 rEx wEx).g.obs.length ≤ wEx.g.obs.length + 1) :=
  ⟨by norm_num, by norm_num [wEx, gEx],
   by norm_num [wEx, gEx, MAX_SPEED, INIT_SPEED, SPEED_RATE],
   spawn_interval_reachable_guarded 1 rEx wEx (by norm_num) (by norm_num [wEx, gEx])
     (by norm_num [wEx, gEx, MAX_SPEED, INIT_SPEED, SPEED_RATE])⟩

/-!  C8  -/

/-- C8 counterexample: a stored nonempty unparseable value (`"abc"`) is
not treated as `0` — `parseInt('abc', 10)` is `NaN` (modelled `none`),
and that is what the fresh state's `hiScore` holds. -/
theorem unparseable_hiScore_not_zero :
    (makeState 800 600 (some "abc") mkEx).hiScore ≠ some 0 := by
  rw [show (makeState 800 600 (some "abc") mkEx).hiScore = none from rfl]
  simp

/-- C8 amended: a missing key or an empty stored string is replaced by
`'0'` by the `|| '0'` fallback and parsed to `0`; construction never
fails, but a nonempty unparseable stored value yields `NaN` (`none`),
not `0`. -/
theorem missing_or_empty_hiScore_zero (w h : ℚ) (mk : MakeRand) :
    (makeState w h none mk).hiScore = some 0 ∧
    (makeState w h (some "") mk).hiScore = some 0 ∧
    (makeState w h (some "abc") mk).hiScore = none :=
  ⟨rfl, rfl, rfl⟩

end Runner
